import Mathlib

/-!
# zero-mlc: display-name registries and the command-line entry point

A shallow embedding of `include/zero-mlc/SourceLanguages.h`,
`include/zero-mlc/Targets.h`, `include/zero-mlc/Utils.h` and `src/main.cpp`.

Modelling conventions.

* A scoped enumeration is its underlying `int`; the declared variants are the
  listed constants.  A function whose control can run into
  `zeromlc::unreachable()` returns `Option`: `none` stands for "control reached
  `unreachable()`", `some v` for a normal return of `v`.
* The process environment of `main` is a `FileSystem`: the current working
  directory when it can be obtained, the object each path string names (if
  any), and the paths on which the status query fails with an error other than
  "not found" (`EACCES`, `ELOOP`, `ENAMETOOLONG`, ...).
* `main` calls the throwing overloads `std::filesystem::exists(const path&)` and
  `std::filesystem::absolute(const path&)` and has no handler: a library call
  yields a `Result`, either a value or a thrown `filesystem_error`, and a thrown
  error ends the run of `main` in `std::terminate`.
* A run of `main` that returns is the triple of exit status, text written to
  `std::cout` and text written to `std::cerr`.
-/

namespace zeromlc

/-! ## `SourceLanguages.h` -/

namespace frontend

/-- The scoped enumeration `enum class SourceLanguage { pytorch }`, as its
underlying integer. -/
structure SourceLanguage where
  underlying : Int
deriving DecidableEq, Repr

/-- The enumerator `SourceLanguage::pytorch` (value `0`). -/
def SourceLanguage.pytorch : SourceLanguage := ⟨0⟩

/-- The declared variants of `SourceLanguage`. -/
def SourceLanguage.variants : List SourceLanguage := [SourceLanguage.pytorch]

/-- The function `zeromlc::frontend::toString`: the `switch` returns `"PyTorch"` at
`case SourceLanguage::pytorch`; any other value falls out of the `switch`
into `zeromlc::unreachable()` (`none`). -/
def toString (source : SourceLanguage) : Option String :=
  if source = SourceLanguage.pytorch then some "PyTorch" else none

end frontend

/-! ## `Targets.h` -/

namespace backend

/-- The scoped enumeration `enum class Target { aarch64 }`, as its underlying
integer. -/
structure Target where
  underlying : Int
deriving DecidableEq, Repr

/-- The enumerator `Target::aarch64` (value `0`). -/
def Target.aarch64 : Target := ⟨0⟩

/-- The declared variants of `Target`. -/
def Target.variants : List Target := [Target.aarch64]

/-- The function `zeromlc::backend::toString`: the `switch` returns `"aarch64"` at
`case Target::aarch64`; any other value falls out of the `switch` into
`zeromlc::unreachable()` (`none`). -/
def toString (target : Target) : Option String :=
  if target = Target.aarch64 then some "aarch64" else none

end backend

/-! ## The environment of `main`: paths and the filesystem -/

namespace filesystem

/-- The kinds of object a successful status query can report. -/
inductive FileKind where
  | regular
  | directory
  | block
  | character
  | fifo
  | socket
  | unknown
deriving DecidableEq, Repr

/-- An object of the filesystem: its identity, its kind and its contents. -/
structure FileNode where
  inode : Nat
  kind : FileKind
  contents : List Nat
deriving DecidableEq, Repr

/-- The part of the process environment `main` runs in.

* `cwd`: what `current_path()` obtains, `none` when it fails (for instance
  when the current directory has been removed).
* `names`: the object a path string names, `none` when it names nothing.
* `statFails`: the paths on which `stat` fails with an error other than
  `ENOENT` and `ENOTDIR` (no search permission on a directory of the path, a
  loop of symbolic links, a name that is too long, ...), whether or not the
  path names an object.

The empty path names nothing and `stat("")` fails with `ENOENT`. -/
structure FileSystem where
  cwd : Option String
  names : String → Option FileNode
  statFails : String → Bool
  names_empty : names "" = none
  statFails_empty : statFails "" = false

/-- The exceptions `main` can meet, by the library call that throws. -/
inductive FilesystemError where
  | status
  | absolute
deriving DecidableEq, Repr

/-- The outcome of a library call that reports errors by exception. -/
inductive Result (α : Type) where
  | returns (a : α)
  | throws (e : FilesystemError)
deriving DecidableEq, Repr

/-- What `status(p, ec)` yields: an object of some kind, `file_type::not_found`,
or `file_type::none` with `ec` set (`failed`). -/
inductive FileStatus where
  | found (node : FileNode)
  | notFound
  | failed
deriving DecidableEq, Repr

/-- The directory separator `/`. -/
def separator : Char := Char.ofNat 47

/-- The delimiter `"` of `std::quoted`. -/
def delim : Char := Char.ofNat 34

/-- The escape character `\` of `std::quoted`. -/
def escape : Char := Char.ofNat 92

/-- The line terminator written by `<< "\n"`. -/
def newline : Char := Char.ofNat 10

/-- The query `status(p, ec)`: `stat` fails with a not-found error, fails with
another error, or succeeds. -/
def status (fs : FileSystem) (p : String) : FileStatus :=
  if fs.statFails p then FileStatus.failed
  else
    match fs.names p with
    | some node => FileStatus.found node
    | none => FileStatus.notFound

/-- The query `std::filesystem::exists(const path& p)`, that is
`exists(status(p))`: `status(p)` throws when the query yields
`file_type::none`; otherwise the path exists unless the query says
not-found. -/
def pathExists (fs : FileSystem) (p : String) : Result Bool :=
  match status fs p with
  | FileStatus.failed => Result.throws FilesystemError.status
  | FileStatus.notFound => Result.returns false
  | FileStatus.found _ => Result.returns true

/-- The query `path::is_absolute()` on POSIX: the path has a root directory, that
is, it starts with the separator. -/
def isAbsolute (p : String) : Bool :=
  p.data.head? == some separator

/-- The query `path::has_filename()`: the path is non-empty and does not end with
a separator. -/
def hasFilename (p : String) : Bool :=
  match p.data.getLast? with
  | none => false
  | some c => c != separator

/-- The operator `path::operator/=` on POSIX: an absolute right operand, or an
empty left operand, replaces the left one; otherwise a separator is added when
the left operand has a filename, and the right operand is appended. -/
def append (base p : String) : String :=
  if isAbsolute p || base.data.isEmpty then p
  else if hasFilename base then base ++ String.singleton separator ++ p
  else base ++ p

/-- The function `std::filesystem::absolute(const path& p)`: it throws on the
empty path; it is `p` itself when `p` is absolute; otherwise it is
`current_path() / p`, and it throws when the current path cannot be obtained.
No normalisation, no symlink resolution. -/
def absolute (fs : FileSystem) (p : String) : Result String :=
  if p.data.isEmpty then Result.throws FilesystemError.absolute
  else if isAbsolute p then Result.returns p
  else
    match fs.cwd with
    | none => Result.throws FilesystemError.absolute
    | some cwd => Result.returns (append cwd p)

/-- The body of `std::quoted`: every delimiter and every escape character is
preceded by the escape character. -/
def quotedChars : List Char → List Char
  | [] => []
  | c :: cs =>
    if c = delim ∨ c = escape then escape :: c :: quotedChars cs
    else c :: quotedChars cs

/-- The stream insertion `os << p` of a `std::filesystem::path`, which is
`os << std::quoted(p.string())`. -/
def quoted (p : String) : String :=
  String.mk (delim :: quotedChars p.data ++ [delim])

end filesystem

/-! ## `main.cpp` -/

/-- What a run of `main` that returns leaves behind: the exit status and the
text written to the two streams. -/
structure Run where
  exitCode : Int
  stdout : String
  stderr : String
deriving DecidableEq, Repr

/-- How a run of `main` ends: `main` returns, or an exception leaves `main` and
the process is ended by `std::terminate` (no exit status of `main`; what the
aborted process has flushed to its streams is not recorded). -/
inductive Outcome where
  | returned (run : Run)
  | terminated (e : filesystem.FilesystemError)
deriving DecidableEq, Repr

open filesystem in
/-- The function `int main(int argc, char *argv[])`, with `argc = argv.length`. -/
def main (argv : List String) (fs : FileSystem) : Option Outcome :=
  let argc : Int := argv.length
  if 2 ≠ argc then
    some (Outcome.returned ⟨1, "",
      "Error: Expected a single file path argument\n" ++
        "Usage: zero-mlc <path-to-file>" ++ "\n"⟩)
  else
    let filepathArg : String := argv.getD 1 ""
    let filepath : String := filepathArg
    match pathExists fs filepath with
    | Result.throws e => some (Outcome.terminated e)
    | Result.returns false =>
      some (Outcome.returned
        ⟨1, "", "Error: File does not exist: " ++ quoted filepath ++ "\n"⟩)
    | Result.returns true =>
      match absolute fs filepath with
      | Result.throws e => some (Outcome.terminated e)
      | Result.returns abs =>
        (frontend.toString frontend.SourceLanguage.pytorch).bind fun source =>
        (backend.toString backend.Target.aarch64).bind fun target =>
        some (Outcome.returned ⟨0,
          "Compiling " ++ abs ++ " from " ++ source ++ " to " ++ target ++ "\n",
          ""⟩)

end zeromlc

/-! ## Auxiliary notions used to state the properties -/

namespace zeromlc
namespace filesystem

/-- Reading back the body of a quoted string (`is >> std::quoted(s)` between the
delimiters): an escape character is dropped and the character after it is
taken literally. -/
def unquotedChars : List Char → List Char
  | [] => []
  | [c] => if c = escape then [] else [c]
  | c :: d :: ds =>
    if c = escape then d :: unquotedChars ds else c :: unquotedChars (d :: ds)

end filesystem

/-- The text is exactly one line terminated by a newline: it ends with the
newline character and contains no other newline. -/
def isSingleLine (s : String) : Bool :=
  s.data.getLast? == some filesystem.newline && s.data.count filesystem.newline == 1

/-- The usage message of `main`. -/
def usageMessage : String :=
  "Error: Expected a single file path argument\nUsage: zero-mlc <path-to-file>\n"

/-- The compilation message of `main` for an absolute path. -/
def compilingMessage (abs : String) : String :=
  "Compiling " ++ abs ++ " from PyTorch to aarch64\n"

end zeromlc

/-! ## Example environments -/

namespace zeromlc
open filesystem

/-- A directory `/d`, the current one, holding one regular file `f` with three
bytes of contents; the file is reachable under several spellings. -/
def exampleFs : FileSystem :=
  ⟨some "/d",
   fun q =>
     if q = "f" ∨ q = "./f" ∨ q = "/d/f" ∨ q = "/d/./f" then some ⟨2, FileKind.regular, [80, 75, 3]⟩
     else if q = "/d" ∨ q = "." ∨ q = "/" then some ⟨1, FileKind.directory, []⟩
     else none,
   fun _ => false,
   by decide, rfl⟩

/-- The same names as in `exampleFs`, but `f` is an empty first-in-first-out
special file. -/
def exampleFsFifo : FileSystem :=
  ⟨some "/d",
   fun q =>
     if q = "f" ∨ q = "./f" ∨ q = "/d/f" ∨ q = "/d/./f" then some ⟨7, FileKind.fifo, []⟩
     else if q = "/d" ∨ q = "." ∨ q = "/" then some ⟨1, FileKind.directory, []⟩
     else none,
   fun _ => false,
   by decide, rfl⟩

/-- An environment whose current directory `/d` holds a file whose name
contains a double quote, and whose root holds a file whose name contains a
newline. -/
def oddNamesFs : FileSystem :=
  ⟨some "/d",
   fun q =>
     if q = "a\"b" ∨ q = "/d/a\"b" then some ⟨3, FileKind.regular, []⟩
     else if q = "/a\nb" then some ⟨4, FileKind.regular, [1]⟩
     else none,
   fun _ => false,
   by decide, rfl⟩

/-- A name of 300 characters. -/
def longName : String := String.mk (List.replicate 300 (Char.ofNat 97))

/-- The current directory `/home/u` holds a directory `locked` without search
permission, which holds a regular file `x` and a directory `sub`.  The status
query fails on every path through `locked` (`EACCES`), whether or not the path
names an object, and on every path longer than 255 characters
(`ENAMETOOLONG`). -/
def lockedFs : FileSystem :=
  ⟨some "/home/u",
   fun q =>
     if q = "locked/x" ∨ q = "/home/u/locked/x" then some ⟨5, FileKind.regular, [1, 2]⟩
     else if q = "locked/sub" ∨ q = "/home/u/locked/sub" then some ⟨6, FileKind.directory, []⟩
     else if q = "locked" ∨ q = "/home/u/locked" then some ⟨4, FileKind.directory, []⟩
     else none,
   fun q =>
     decide (255 < q.length) || decide (q = "locked/x") || decide (q = "/home/u/locked/x") ||
       decide (q = "locked/sub") || decide (q = "/home/u/locked/sub") ||
       decide (q = "locked/nothing") || decide (q = "/home/u/locked/nothing"),
   by decide, by decide⟩

/-- The current directory of the process has been removed: `.` and `..` still
name directories and `/etc` exists, but the current path cannot be obtained. -/
def removedCwdFs : FileSystem :=
  ⟨none,
   fun q =>
     if q = "." then some ⟨9, FileKind.directory, []⟩
     else if q = ".." ∨ q = "/tmp" then some ⟨8, FileKind.directory, []⟩
     else if q = "/etc" then some ⟨3, FileKind.directory, []⟩
     else none,
   fun _ => false,
   by decide, rfl⟩

end zeromlc

/-! ## Lemmas on the library calls and on the exits of `main` -/

namespace zeromlc
open filesystem

theorem pathExists_failed (fs : FileSystem) (p : String) (h : fs.statFails p = true) :
    pathExists fs p = Result.throws FilesystemError.status := by
  simp [pathExists, status, h]

theorem pathExists_missing (fs : FileSystem) (p : String) (h : fs.statFails p = false)
    (hn : fs.names p = none) : pathExists fs p = Result.returns false := by
  simp [pathExists, status, h, hn]

theorem pathExists_found (fs : FileSystem) (p : String) (node : FileNode)
    (h : fs.statFails p = false) (hn : fs.names p = some node) :
    pathExists fs p = Result.returns true := by
  simp [pathExists, status, h, hn]

theorem nonempty_of_named (fs : FileSystem) (p : String) (hn : fs.names p ≠ none) :
    p.data.isEmpty = false := by
  cases hd : p.data with
  | nil =>
    have hp : p = "" := String.ext hd
    rw [hp] at hn
    exact absurd fs.names_empty hn
  | cons c cs => rfl

theorem nonempty_of_isAbsolute (p : String) (h : isAbsolute p = true) :
    p.data.isEmpty = false := by
  cases hd : p.data with
  | nil => simp [isAbsolute, hd] at h
  | cons c cs => rfl

theorem absolute_of_isAbsolute (fs : FileSystem) (p : String) (h : isAbsolute p = true) :
    absolute fs p = Result.returns p := by
  simp [absolute, nonempty_of_isAbsolute p h, h]

theorem absolute_relative (fs : FileSystem) (p cwd : String)
    (hne : p.data.isEmpty = false) (h : isAbsolute p = false) (hc : fs.cwd = some cwd) :
    absolute fs p = Result.returns (append cwd p) := by
  simp [absolute, hne, h, hc]

theorem absolute_no_cwd (fs : FileSystem) (p : String) (h : isAbsolute p = false)
    (hc : fs.cwd = none) : absolute fs p = Result.throws FilesystemError.absolute := by
  by_cases hne : p.data.isEmpty = true
  · simp [absolute, hne]
  · simp [absolute, hne, h, hc]

theorem append_relative (cwd p : String) (h : isAbsolute p = false) :
    (hasFilename cwd = true → append cwd p = cwd ++ "/" ++ p) ∧
      (hasFilename cwd = false → append cwd p = cwd ++ p) := by
  constructor
  · intro hf
    have hne : cwd.data.isEmpty = false := by
      cases hd : cwd.data with
      | nil => simp [hasFilename, hd] at hf
      | cons c cs => rfl
    simp only [append, h, hne, hf, Bool.or_self, Bool.false_eq_true, if_false, if_true]
    rfl
  · intro hf
    by_cases hne : cwd.data.isEmpty = true
    · have hc : cwd = "" := by
        apply String.ext
        cases hd : cwd.data with
        | nil => rfl
        | cons c cs => simp [hd] at hne
      simp only [append, h, hne, Bool.or_true, if_true, hc]
      apply String.ext
      simp [String.data_append]
    · simp only [append, h, hne, hf, Bool.or_self, Bool.false_eq_true, if_false]

theorem main_wrong_count (argv : List String) (fs : FileSystem)
    (h : argv.length ≠ 2) :
    main argv fs = some (Outcome.returned ⟨1, "", usageMessage⟩) := by
  have h2 : ¬ ((2 : Int) = (argv.length : Int)) := by omega
  simp only [main, Ne, h2, not_false_eq_true, if_true]
  rfl

theorem main_throws (prog p : String) (fs : FileSystem) (e : FilesystemError)
    (h : pathExists fs p = Result.throws e) :
    main [prog, p] fs = some (Outcome.terminated e) := by
  simp [main, h]

theorem main_missing (prog p : String) (fs : FileSystem)
    (h : pathExists fs p = Result.returns false) :
    main [prog, p] fs =
      some (Outcome.returned
        ⟨1, "", "Error: File does not exist: " ++ quoted p ++ "\n"⟩) := by
  simp [main, h]

theorem main_absolute_throws (prog p : String) (fs : FileSystem) (e : FilesystemError)
    (h : pathExists fs p = Result.returns true) (ha : absolute fs p = Result.throws e) :
    main [prog, p] fs = some (Outcome.terminated e) := by
  simp [main, h, ha]

theorem main_existing (prog p abs : String) (fs : FileSystem)
    (h : pathExists fs p = Result.returns true) (ha : absolute fs p = Result.returns abs) :
    main [prog, p] fs = some (Outcome.returned ⟨0, compilingMessage abs, ""⟩) := by
  simp only [main, List.length_cons, List.length_nil, List.getD_cons_succ, List.getD_cons_zero,
    h, ha, frontend.toString, backend.toString, compilingMessage, String.append_assoc]
  rfl

theorem pathExists_eq_throws (fs : FileSystem) (p : String) (e : FilesystemError)
    (h : pathExists fs p = Result.throws e) :
    fs.statFails p = true ∧ e = FilesystemError.status := by
  cases hs : fs.statFails p with
  | true =>
    rw [pathExists_failed fs p hs] at h
    exact ⟨rfl, (Result.throws.inj h).symm⟩
  | false =>
    cases hn : fs.names p with
    | none =>
      rw [pathExists_missing fs p hs hn] at h
      exact absurd h (by simp)
    | some node =>
      rw [pathExists_found fs p node hs hn] at h
      exact absurd h (by simp)

theorem absolute_eq_throws (fs : FileSystem) (p : String) (e : FilesystemError)
    (hne : p.data.isEmpty = false) (h : absolute fs p = Result.throws e) :
    isAbsolute p = false ∧ fs.cwd = none ∧ e = FilesystemError.absolute := by
  cases ha : isAbsolute p with
  | true =>
    rw [absolute_of_isAbsolute fs p ha] at h
    exact absurd h (by simp)
  | false =>
    cases hc : fs.cwd with
    | none =>
      rw [absolute_no_cwd fs p ha hc] at h
      exact ⟨rfl, rfl, (Result.throws.inj h).symm⟩
    | some c =>
      rw [absolute_relative fs p c hne ha hc] at h
      exact absurd h (by simp)

theorem absolute_eq_returns (fs : FileSystem) (p abs : String)
    (h : absolute fs p = Result.returns abs) : isAbsolute p = true ∨ fs.cwd ≠ none := by
  cases ha : isAbsolute p with
  | true => exact Or.inl rfl
  | false =>
    cases hc : fs.cwd with
    | none =>
      rw [absolute_no_cwd fs p ha hc] at h
      exact absurd h (by simp)
    | some c => exact Or.inr (by simp)

/-- The four ways a run with one argument can go. -/
theorem main_one_argument (prog p : String) (fs : FileSystem) :
    (fs.statFails p = true ∧
        main [prog, p] fs = some (Outcome.terminated FilesystemError.status)) ∨
      (fs.statFails p = false ∧ fs.names p = none ∧
        main [prog, p] fs =
          some (Outcome.returned
            ⟨1, "", "Error: File does not exist: " ++ quoted p ++ "\n"⟩)) ∨
      (fs.statFails p = false ∧ fs.names p ≠ none ∧ isAbsolute p = false ∧ fs.cwd = none ∧
        main [prog, p] fs = some (Outcome.terminated FilesystemError.absolute)) ∨
      (fs.statFails p = false ∧ fs.names p ≠ none ∧
        (isAbsolute p = true ∨ fs.cwd ≠ none) ∧
        ∃ abs, absolute fs p = Result.returns abs ∧
          main [prog, p] fs = some (Outcome.returned ⟨0, compilingMessage abs, ""⟩)) := by
  cases hs : fs.statFails p with
  | true => exact Or.inl ⟨rfl, main_throws prog p fs _ (pathExists_failed fs p hs)⟩
  | false =>
    cases hn : fs.names p with
    | none =>
      exact Or.inr (Or.inl ⟨rfl, rfl, main_missing prog p fs (pathExists_missing fs p hs hn)⟩)
    | some node =>
      have he := pathExists_found fs p node hs hn
      have hne : p.data.isEmpty = false := nonempty_of_named fs p (by simp [hn])
      cases hab : absolute fs p with
      | throws e =>
        obtain ⟨h1, h2, h3⟩ := absolute_eq_throws fs p e hne hab
        rw [h3] at hab
        exact Or.inr (Or.inr (Or.inl
          ⟨rfl, by simp, h1, h2, main_absolute_throws prog p fs _ he hab⟩))
      | returns abs =>
        exact Or.inr (Or.inr (Or.inr
          ⟨rfl, by simp, absolute_eq_returns fs p abs hab, abs, rfl,
            main_existing prog p abs fs he hab⟩))

theorem length_two (argv : List String) (h : argv.length = 2) :
    ∃ prog p, argv = [prog, p] := by
  match argv, h with
  | [a, b], _ => exact ⟨a, b, rfl⟩

theorem unquotedChars_quotedChars (cs : List Char) :
    unquotedChars (quotedChars cs) = cs := by
  induction cs with
  | nil => rfl
  | cons c cs ih =>
    by_cases hc : c = delim ∨ c = escape
    · simp [quotedChars, hc, unquotedChars, ih]
    · have hne : c ≠ escape := fun h => hc (Or.inr h)
      simp only [quotedChars, hc, if_false]
      cases hq : quotedChars cs with
      | nil =>
        rw [hq] at ih
        simp [unquotedChars, hne, ← ih]
      | cons d ds =>
        rw [hq] at ih
        simp [unquotedChars, hne, ih]

theorem quotedChars_eq_bind (cs : List Char) :
    quotedChars cs =
      cs.flatMap fun c => if c = delim ∨ c = escape then [escape, c] else [c] := by
  induction cs with
  | nil => rfl
  | cons c cs ih =>
    by_cases hc : c = delim ∨ c = escape <;> simp [quotedChars, hc, ih]

theorem quotedChars_eq_self (cs : List Char) (hd : delim ∉ cs) (he : escape ∉ cs) :
    quotedChars cs = cs := by
  induction cs with
  | nil => rfl
  | cons c cs ih =>
    simp only [List.mem_cons, not_or] at hd he
    have hc : ¬ (c = delim ∨ c = escape) := by
      rintro (h | h)
      · exact hd.1 h.symm
      · exact he.1 h.symm
    simp [quotedChars, hc, ih hd.2 he.2]

theorem newline_count_compilingMessage (x : String) :
    (compilingMessage x).data.count newline = x.data.count newline + 1 := by
  have h : (compilingMessage x).data =
      "Compiling ".data ++ (x.data ++ " from PyTorch to aarch64\n".data) := by
    simp only [compilingMessage, String.data_append, List.append_assoc]
  have h1 : "Compiling ".data.count newline = 0 := by decide
  have h2 : " from PyTorch to aarch64\n".data.count newline = 1 := by decide
  rw [h, List.count_append, List.count_append, h1, h2]
  omega

theorem getLast_compilingMessage (x : String) :
    (compilingMessage x).data.getLast? = some newline := by
  have h : (compilingMessage x).data =
      ("Compiling ".data ++ x.data ++ " from PyTorch to aarch64".data) ++ [newline] := by
    simp only [compilingMessage, String.data_append, List.append_assoc]
    rfl
  rw [h]
  exact List.getLast?_concat _

theorem isSingleLine_compilingMessage (x : String) :
    isSingleLine (compilingMessage x) = true ↔ newline ∉ x.data := by
  simp only [isSingleLine, getLast_compilingMessage, newline_count_compilingMessage,
    beq_self_eq_true, Bool.true_and, beq_iff_eq, add_left_eq_self, List.count_eq_zero]

theorem compilingMessage_ne_empty (x : String) : compilingMessage x ≠ "" := by
  intro h
  have hl := getLast_compilingMessage x
  rw [h] at hl
  exact absurd hl (by decide)

theorem missing_message_ne_empty (p : String) :
    "Error: File does not exist: " ++ quoted p ++ "\n" ≠ "" := by
  intro h
  have hd := congrArg String.data h
  simp only [String.data_append, List.append_assoc] at hd
  exact absurd (congrArg List.length hd) (by simp)

end zeromlc

/-! ## The contract of the entry point and of the registries -/

namespace zeromlc
open filesystem

set_option maxRecDepth 8000

/-- C1, as stated, fails: the file `locked/x` of `lockedFs` exists, but the
status query on it fails and the uncaught exception ends the run without exit
status 0; and in `removedCwdFs` the path `.` exists, but the current path
cannot be obtained, so forming the absolute path throws. -/
theorem existing_path_aborts :
    (lockedFs.names "locked/x" = some ⟨5, FileKind.regular, [1, 2]⟩ ∧
        main ["zero-mlc", "locked/x"] lockedFs =
          some (Outcome.terminated FilesystemError.status)) ∧
      (removedCwdFs.names "." = some ⟨9, FileKind.directory, []⟩ ∧
        main ["zero-mlc", "."] removedCwdFs =
          some (Outcome.terminated FilesystemError.absolute)) := by
  decide

/-- C1, amended: let `p` be the single argument and let it exist.  If the status
query on `p` succeeds and `p` is absolute or the current working directory can
be obtained, `main` returns 0, writes nothing to the error stream and writes
exactly `Compiling <abs(p)> from PyTorch to aarch64` and a newline to standard
output, where `abs(p)` is `p` itself when `p` is absolute and otherwise the
current directory joined with `p`: with a separator between them when the
directory does not end with one, directly when it does.  If the status query
fails, or `p` is relative and the current directory cannot be obtained, the
run is ended by the uncaught exception. -/
theorem main_existing_path_contract (fs : FileSystem) (prog p : String) (node : FileNode)
    (hn : fs.names p = some node) :
    (fs.statFails p = false → (isAbsolute p = true ∨ fs.cwd ≠ none) →
        ∃ abs, main [prog, p] fs =
            some (Outcome.returned
              ⟨0, "Compiling " ++ abs ++ " from PyTorch to aarch64\n", ""⟩) ∧
          (isAbsolute p = true → abs = p) ∧
          (∀ cwd, isAbsolute p = false → fs.cwd = some cwd →
            (hasFilename cwd = true → abs = cwd ++ "/" ++ p) ∧
            (hasFilename cwd = false → abs = cwd ++ p))) ∧
      (fs.statFails p = true →
        main [prog, p] fs = some (Outcome.terminated FilesystemError.status)) ∧
      (fs.statFails p = false → isAbsolute p = false → fs.cwd = none →
        main [prog, p] fs = some (Outcome.terminated FilesystemError.absolute)) := by
  have hne : p.data.isEmpty = false := nonempty_of_named fs p (by simp [hn])
  refine ⟨?_, ?_, ?_⟩
  · intro hs hc
    have he := pathExists_found fs p node hs hn
    cases ha : isAbsolute p with
    | true =>
      refine ⟨p, main_existing prog p p fs he (absolute_of_isAbsolute fs p ha), ?_, ?_⟩
      · intro _
        rfl
      · intro cwd h
        exact absurd h (by simp)
    | false =>
      cases hcwd : fs.cwd with
      | none =>
        rcases hc with hc | hc
        · rw [ha] at hc
          exact absurd hc (by simp)
        · exact absurd hcwd hc
      | some c =>
        refine ⟨append c p, main_existing prog p _ fs he (absolute_relative fs p c hne ha hcwd),
          ?_, ?_⟩
        · intro h
          exact absurd h (by simp)
        · intro cwd _ hc'
          have hcc : c = cwd := Option.some.inj hc'
          rw [hcc]
          exact append_relative cwd p ha
  · intro hs
    exact main_throws prog p fs _ (pathExists_failed fs p hs)
  · intro hs ha hc
    exact main_absolute_throws prog p fs _ (pathExists_found fs p node hs hn)
      (absolute_no_cwd fs p ha hc)

/-- Witness of the amended C1: a relative and an absolute argument in
`exampleFs`, and an absolute argument where there is no current directory. -/
theorem main_existing_path_contract_witness :
    (∃ abs, main ["zero-mlc", "f"] exampleFs =
          some (Outcome.returned
            ⟨0, "Compiling " ++ abs ++ " from PyTorch to aarch64\n", ""⟩) ∧
        (isAbsolute "f" = true → abs = "f") ∧
        (∀ cwd, isAbsolute "f" = false → exampleFs.cwd = some cwd →
          (hasFilename cwd = true → abs = cwd ++ "/" ++ "f") ∧
          (hasFilename cwd = false → abs = cwd ++ "f"))) ∧
      main ["zero-mlc", "f"] exampleFs =
        some (Outcome.returned ⟨0, "Compiling /d/f from PyTorch to aarch64\n", ""⟩) ∧
      main ["zero-mlc", "/etc"] removedCwdFs =
        some (Outcome.returned ⟨0, "Compiling /etc from PyTorch to aarch64\n", ""⟩) :=
  ⟨(main_existing_path_contract exampleFs "zero-mlc" "f" ⟨2, FileKind.regular, [80, 75, 3]⟩
      (by decide)).1 (by decide) (by decide),
    by decide, by decide⟩

/-- C2: whenever the argument count is not two (no user argument, or two or
more), whatever the filesystem and the arguments, `main` returns 1, writes
nothing to standard output and writes exactly the two-line usage message to the
error stream; the existence of the arguments is never consulted. -/
theorem main_usage_error (argv : List String) (fs : FileSystem)
    (h : argv.length ≠ 2) :
    main argv fs =
      some (Outcome.returned ⟨1, "",
        "Error: Expected a single file path argument\nUsage: zero-mlc <path-to-file>\n"⟩) :=
  main_wrong_count argv fs h

/-- Witness of C2: no argument, no program name at all, three arguments of
which the first does not exist, and three arguments of which the first cannot
be queried. -/
theorem main_usage_error_witness :
    main ["zero-mlc"] exampleFs = some (Outcome.returned ⟨1, "", usageMessage⟩) ∧
      main [] exampleFs = some (Outcome.returned ⟨1, "", usageMessage⟩) ∧
      exampleFs.names "missing" = none ∧
      main ["zero-mlc", "missing", "f", "g"] exampleFs =
        some (Outcome.returned ⟨1, "", usageMessage⟩) ∧
      lockedFs.statFails "locked/x" = true ∧
      main ["zero-mlc", "locked/x", "f"] lockedFs =
        some (Outcome.returned ⟨1, "", usageMessage⟩) :=
  ⟨main_usage_error ["zero-mlc"] exampleFs (by decide),
    main_usage_error [] exampleFs (by decide), by decide,
    main_usage_error ["zero-mlc", "missing", "f", "g"] exampleFs (by decide), by decide,
    main_usage_error ["zero-mlc", "locked/x", "f"] lockedFs (by decide)⟩

/-- C3, as stated, fails: in `lockedFs` neither the name of 300 characters nor
`locked/nothing` names anything, but the status query on them fails with an
error other than not-found (`ENAMETOOLONG`, `EACCES`) and the uncaught
exception ends the run: no exit status 1, no file-not-found message. -/
theorem missing_path_aborts :
    (lockedFs.names longName = none ∧
        main ["zero-mlc", longName] lockedFs =
          some (Outcome.terminated FilesystemError.status)) ∧
      (lockedFs.names "locked/nothing" = none ∧
        main ["zero-mlc", "locked/nothing"] lockedFs =
          some (Outcome.terminated FilesystemError.status)) := by
  decide

/-- C3, amended: let `p` be the single argument and let it not exist.  If the
status query on `p` succeeds (it reports not-found), `main` returns 1 and
writes to the error stream a message that begins with
`Error: File does not exist: `, then names `p` (the text between the two
delimiters reads back as `p` once the escaping is undone) and ends with a
newline; the empty string is such an argument in every environment.  If the
status query fails with another error, the run is ended by the uncaught
exception. -/
theorem main_missing_path_error (fs : FileSystem) (prog p : String)
    (hn : fs.names p = none) :
    (fs.statFails p = false →
        ∃ r body, main [prog, p] fs = some (Outcome.returned r) ∧ r.exitCode = 1 ∧
          "Error: File does not exist: ".data <+: r.stderr.data ∧
          r.stderr.data =
            "Error: File does not exist: ".data ++ (delim :: body ++ [delim]) ++ [newline] ∧
          unquotedChars body = p.data ∧
          r.stderr.data.getLast? = some newline) ∧
      (fs.statFails p = true →
        main [prog, p] fs = some (Outcome.terminated FilesystemError.status)) ∧
      main [prog, ""] fs =
        some (Outcome.returned ⟨1, "", "Error: File does not exist: \"\"\n"⟩) := by
  have he : pathExists fs "" = Result.returns false :=
    pathExists_missing fs "" fs.statFails_empty fs.names_empty
  refine ⟨?_, ?_, ?_⟩
  · intro hs
    refine ⟨_, quotedChars p.data, main_missing prog p fs (pathExists_missing fs p hs hn),
      rfl, ?_, ?_, unquotedChars_quotedChars _, ?_⟩
    · simp only [String.data_append, List.append_assoc]
      exact List.prefix_append _ _
    · simp only [String.data_append, quoted, List.append_assoc]
      rfl
    · simp only [String.data_append]
      exact List.getLast?_concat _
  · intro hs
    exact main_throws prog p fs _ (pathExists_failed fs p hs)
  · rw [main_missing prog "" fs he]
    rfl

/-- Witness of the amended C3: a missing path whose name needs no escaping. -/
theorem main_missing_path_error_witness :
    exampleFs.names "missing" = none ∧ exampleFs.statFails "missing" = false ∧
      ∃ r body, main ["zero-mlc", "missing"] exampleFs = some (Outcome.returned r) ∧
        r.exitCode = 1 ∧
        "Error: File does not exist: ".data <+: r.stderr.data ∧
        r.stderr.data =
          "Error: File does not exist: ".data ++ (delim :: body ++ [delim]) ++ [newline] ∧
        unquotedChars body = "missing".data ∧
        r.stderr.data.getLast? = some newline :=
  ⟨by decide, by decide,
    (main_missing_path_error exampleFs "zero-mlc" "missing" (by decide)).1 (by decide)⟩

/-- C4: the two display-name lookups return on every declared variant:
`frontend::toString` returns `PyTorch` for each `SourceLanguage` variant and
`backend::toString` returns `aarch64` for each `Target` variant; equal
arguments give equal results. -/
theorem toString_total_on_variants :
    (∀ s ∈ frontend.SourceLanguage.variants, frontend.toString s = some "PyTorch") ∧
      (∀ t ∈ backend.Target.variants, backend.toString t = some "aarch64") ∧
      (∀ s₁ s₂ : frontend.SourceLanguage, s₁ = s₂ →
        frontend.toString s₁ = frontend.toString s₂) ∧
      (∀ t₁ t₂ : backend.Target, t₁ = t₂ → backend.toString t₁ = backend.toString t₂) := by
  refine ⟨?_, ?_, ?_, ?_⟩
  · intro s hs
    simp only [frontend.SourceLanguage.variants, List.mem_singleton] at hs
    simp [frontend.toString, hs]
  · intro t ht
    simp only [backend.Target.variants, List.mem_singleton] at ht
    simp [backend.toString, ht]
  · intro s₁ s₂ h
    rw [h]
  · intro t₁ t₂ h
    rw [h]

/-- Witness of C4 at the two enumerators. -/
theorem toString_total_on_variants_witness :
    frontend.toString frontend.SourceLanguage.pytorch = some "PyTorch" ∧
      backend.toString backend.Target.aarch64 = some "aarch64" :=
  ⟨toString_total_on_variants.1 _ (by decide),
    toString_total_on_variants.2.1 _ (by decide)⟩

end zeromlc

namespace zeromlc
open filesystem

/-- C7: no declared variant of `SourceLanguage` or of `Target` lets its lookup
reach `zeromlc::unreachable()`, and no run of `main`, whatever the arguments
and the filesystem, reaches it. -/
theorem unreachable_never_reached :
    (∀ s ∈ frontend.SourceLanguage.variants, frontend.toString s ≠ none) ∧
      (∀ t ∈ backend.Target.variants, backend.toString t ≠ none) ∧
      (∀ (argv : List String) (fs : FileSystem), main argv fs ≠ none) := by
  refine ⟨?_, ?_, ?_⟩
  · intro s hs
    simp only [frontend.SourceLanguage.variants, List.mem_singleton] at hs
    simp [frontend.toString, hs]
  · intro t ht
    simp only [backend.Target.variants, List.mem_singleton] at ht
    simp [backend.toString, ht]
  · intro argv fs
    by_cases hlen : argv.length = 2
    · obtain ⟨prog, p, rfl⟩ := length_two argv hlen
      rcases main_one_argument prog p fs with
        ⟨_, h⟩ | ⟨_, _, h⟩ | ⟨_, _, _, _, h⟩ | ⟨_, _, _, abs, _, h⟩ <;> simp [h]
    · simp [main_wrong_count argv fs hlen]

/-- Witness of C7 at the two enumerators and at one run of each exit of `main`. -/
theorem unreachable_never_reached_witness :
    frontend.toString frontend.SourceLanguage.pytorch ≠ none ∧
      backend.toString backend.Target.aarch64 ≠ none ∧
      main ["zero-mlc", "f"] exampleFs ≠ none ∧
      main ["zero-mlc", "missing"] exampleFs ≠ none ∧
      main ["zero-mlc"] exampleFs ≠ none ∧
      main ["zero-mlc", "locked/x"] lockedFs ≠ none :=
  ⟨unreachable_never_reached.1 _ (by decide), unreachable_never_reached.2.1 _ (by decide),
    unreachable_never_reached.2.2 _ _, unreachable_never_reached.2.2 _ _,
    unreachable_never_reached.2.2 _ _, unreachable_never_reached.2.2 _ _⟩

/-- Outside the declared variants the lookups do reach `zeromlc::unreachable()`. -/
theorem toString_out_of_range :
    frontend.toString ⟨1⟩ = none ∧ backend.toString ⟨-1⟩ = none := by
  decide

end zeromlc

namespace zeromlc
open filesystem

/-- C8, as stated, fails twice.  The file `/a<newline>b` of `oddNamesFs` exists,
`main` returns 0, and standard output receives two lines, not one.  And in
`lockedFs` the status query on `/home/u/locked/sub` fails, so the run is ended
by the uncaught exception: `main` returns neither 0 nor 1 and completes no
message of its own. -/
theorem stream_discipline_fails :
    (oddNamesFs.names "/a\nb" = some ⟨4, FileKind.regular, [1]⟩ ∧
        main ["zero-mlc", "/a\nb"] oddNamesFs =
          some (Outcome.returned ⟨0, "Compiling /a\nb from PyTorch to aarch64\n", ""⟩) ∧
        "Compiling /a\nb from PyTorch to aarch64\n".data.count newline = 2 ∧
        isSingleLine "Compiling /a\nb from PyTorch to aarch64\n" = false) ∧
      (main ["zero-mlc", "/home/u/locked/sub"] lockedFs =
          some (Outcome.terminated FilesystemError.status) ∧
        ¬ ∃ r, main ["zero-mlc", "/home/u/locked/sub"] lockedFs = some (Outcome.returned r) ∧
          (r.exitCode = 0 ∨ r.exitCode = 1)) := by
  refine ⟨by decide, by decide, ?_⟩
  rintro ⟨r, hr, _⟩
  have h : main ["zero-mlc", "/home/u/locked/sub"] lockedFs =
      some (Outcome.terminated FilesystemError.status) := by decide
  rw [h] at hr
  exact absurd hr (by simp)

/-- C8, amended: a run of `main` is ended by an uncaught exception exactly when
there is one argument and either the status query on it fails, or it exists,
is relative and the current working directory cannot be obtained.  Every other
run returns 0 or 1 and writes to exactly one stream.  With status 0 the error
stream receives nothing and standard output receives a text that ends with a
newline; that text is exactly one line if and only if the absolute path has no
newline in it.  With status 1 standard output receives nothing and the error
stream receives a non-empty text. -/
theorem main_stream_discipline (argv : List String) (fs : FileSystem) :
    ((∃ e, main argv fs = some (Outcome.terminated e)) ↔
        ∃ prog p, argv = [prog, p] ∧
          (fs.statFails p = true ∨
            (fs.names p ≠ none ∧ isAbsolute p = false ∧ fs.cwd = none))) ∧
      ((∃ e, main argv fs = some (Outcome.terminated e)) ∨
        ∃ r, main argv fs = some (Outcome.returned r) ∧
          (r.exitCode = 0 ∨ r.exitCode = 1) ∧
          (r.exitCode = 0 →
            r.stderr = "" ∧ r.stdout ≠ "" ∧ r.stdout.data.getLast? = some newline ∧
            ∃ abs, absolute fs (argv.getD 1 "") = Result.returns abs ∧
              (isSingleLine r.stdout = true ↔ newline ∉ abs.data)) ∧
          (r.exitCode = 1 → r.stdout = "" ∧ r.stderr ≠ "")) := by
  by_cases hlen : argv.length = 2
  · obtain ⟨prog, p, rfl⟩ := length_two argv hlen
    rcases main_one_argument prog p fs with
      ⟨hs, h⟩ | ⟨hs, hn, h⟩ | ⟨hs, hn, ha, hc, h⟩ | ⟨hs, hn, hac, abs, hab, h⟩
    · exact ⟨⟨fun _ => ⟨prog, p, rfl, Or.inl hs⟩, fun _ => ⟨_, h⟩⟩, Or.inl ⟨_, h⟩⟩
    · refine ⟨⟨?_, ?_⟩, Or.inr ⟨_, h, Or.inr rfl, ?_, ?_⟩⟩
      · rintro ⟨e, he⟩
        rw [h] at he
        exact absurd he (by simp)
      · rintro ⟨prog', p', hp, hor⟩
        simp only [List.cons.injEq, and_true] at hp
        rw [← hp.2] at hor
        rcases hor with h1 | ⟨h1, _, _⟩
        · rw [hs] at h1
          exact absurd h1 (by simp)
        · exact absurd hn h1
      · intro h0
        exact absurd h0 (show (1 : Int) ≠ 0 by decide)
      · intro _
        exact ⟨rfl, missing_message_ne_empty p⟩
    · exact ⟨⟨fun _ => ⟨prog, p, rfl, Or.inr ⟨hn, ha, hc⟩⟩, fun _ => ⟨_, h⟩⟩, Or.inl ⟨_, h⟩⟩
    · refine ⟨⟨?_, ?_⟩, Or.inr ⟨_, h, Or.inl rfl, ?_, ?_⟩⟩
      · rintro ⟨e, he⟩
        rw [h] at he
        exact absurd he (by simp)
      · rintro ⟨prog', p', hp, hor⟩
        simp only [List.cons.injEq, and_true] at hp
        rw [← hp.2] at hor
        rcases hor with h1 | ⟨_, h2, h3⟩
        · rw [hs] at h1
          exact absurd h1 (by simp)
        · rcases hac with h4 | h4
          · rw [h2] at h4
            exact absurd h4 (by simp)
          · exact absurd h3 h4
      · intro _
        exact ⟨rfl, compilingMessage_ne_empty abs, getLast_compilingMessage abs, abs, hab,
          isSingleLine_compilingMessage abs⟩
      · intro h1
        exact absurd h1 (show (0 : Int) ≠ 1 by decide)
  · have h := main_wrong_count argv fs hlen
    refine ⟨⟨?_, ?_⟩, Or.inr ⟨_, h, Or.inr rfl, ?_, ?_⟩⟩
    · rintro ⟨e, he⟩
      rw [h] at he
      exact absurd he (by simp)
    · rintro ⟨prog, p, hp, _⟩
      rw [hp] at hlen
      exact absurd rfl hlen
    · intro h0
      exact absurd h0 (show (1 : Int) ≠ 0 by decide)
    · intro _
      exact ⟨rfl, by decide⟩

/-- Witness of the amended C8: a run that is ended by the exception, and a run
that returns 0 and prints one line. -/
theorem main_stream_discipline_witness :
    (∃ e, main ["zero-mlc", "locked/x"] lockedFs = some (Outcome.terminated e)) ∧
      ((∃ e, main ["zero-mlc", "f"] exampleFs = some (Outcome.terminated e)) ∨
        ∃ r, main ["zero-mlc", "f"] exampleFs = some (Outcome.returned r) ∧
          (r.exitCode = 0 ∨ r.exitCode = 1) ∧
          (r.exitCode = 0 →
            r.stderr = "" ∧ r.stdout ≠ "" ∧ r.stdout.data.getLast? = some newline ∧
            ∃ abs, absolute exampleFs (["zero-mlc", "f"].getD 1 "") = Result.returns abs ∧
              (isSingleLine r.stdout = true ↔ newline ∉ abs.data)) ∧
          (r.exitCode = 1 → r.stdout = "" ∧ r.stderr ≠ "")) ∧
      main ["zero-mlc", "f"] exampleFs =
        some (Outcome.returned ⟨0, "Compiling /d/f from PyTorch to aarch64\n", ""⟩) ∧
      isSingleLine "Compiling /d/f from PyTorch to aarch64\n" = true :=
  ⟨(main_stream_discipline ["zero-mlc", "locked/x"] lockedFs).1.2
      ⟨"zero-mlc", "locked/x", rfl, Or.inl (by decide)⟩,
    (main_stream_discipline ["zero-mlc", "f"] exampleFs).2, by decide, by decide⟩

/-- C9: the two messages render the path differently.  For a missing path the
error stream receives exactly `Error: File does not exist: `, the argument in
the stream-insertion format of a path, and a newline; that format is the
argument between double quotes with a backslash before every double quote and
every backslash, so an argument with neither is written between literal quote
characters.  For an existing path standard output carries the absolute path
as it is, unquoted and unescaped. -/
theorem main_path_rendering (fs : FileSystem) (prog p : String) :
    (pathExists fs p = Result.returns false →
        main [prog, p] fs =
          some (Outcome.returned
            ⟨1, "", "Error: File does not exist: " ++ quoted p ++ "\n"⟩)) ∧
      (quoted p).data =
        [delim] ++ (p.data.flatMap fun c => if c = delim ∨ c = escape then [escape, c] else [c])
          ++ [delim] ∧
      (delim ∉ p.data → escape ∉ p.data → quoted p = "\"" ++ p ++ "\"") ∧
      (∀ abs, pathExists fs p = Result.returns true → absolute fs p = Result.returns abs →
        main [prog, p] fs =
          some (Outcome.returned
            ⟨0, "Compiling " ++ abs ++ " from PyTorch to aarch64\n", ""⟩)) ∧
      (pathExists fs p = Result.returns true → isAbsolute p = true →
        main [prog, p] fs =
          some (Outcome.returned
            ⟨0, "Compiling " ++ p ++ " from PyTorch to aarch64\n", ""⟩)) := by
  refine ⟨main_missing prog p fs, ?_, ?_, ?_, ?_⟩
  · simp [quoted, quotedChars_eq_bind]
  · intro hd he
    apply String.ext
    simp only [quoted, quotedChars_eq_self _ hd he, String.data_append]
    rfl
  · intro abs h hab
    exact main_existing prog p abs fs h hab
  · intro h ha
    exact main_existing prog p p fs h (absolute_of_isAbsolute fs p ha)

/-- Witness of C9: a missing path with a quote and a backslash in its name, a
missing path with neither, and an existing path with a quote in its name. -/
theorem main_path_rendering_witness :
    pathExists oddNamesFs "x\"y\\z" = Result.returns false ∧
      main ["zero-mlc", "x\"y\\z"] oddNamesFs =
        some (Outcome.returned ⟨1, "", "Error: File does not exist: \"x\\\"y\\\\z\"\n"⟩) ∧
      quoted "missing" = "\"missing\"" ∧
      pathExists oddNamesFs "a\"b" = Result.returns true ∧
      main ["zero-mlc", "a\"b"] oddNamesFs =
        some (Outcome.returned ⟨0, "Compiling /d/a\"b from PyTorch to aarch64\n", ""⟩) ∧
      main ["zero-mlc", "/d/a\"b"] oddNamesFs =
        some (Outcome.returned ⟨0, "Compiling /d/a\"b from PyTorch to aarch64\n", ""⟩) :=
  ⟨by decide, (main_path_rendering oddNamesFs "zero-mlc" "x\"y\\z").1 (by decide),
    (main_path_rendering oddNamesFs "zero-mlc" "missing").2.2.1 (by decide) (by decide),
    by decide,
    (main_path_rendering oddNamesFs "zero-mlc" "a\"b").2.2.2.1 "/d/a\"b" (by decide) (by decide),
    (main_path_rendering oddNamesFs "zero-mlc" "/d/a\"b").2.2.2.2 (by decide) (by decide)⟩

/-- C10, as stated, fails: in `lockedFs` the directory `locked/sub` exists and
is the single argument, but the status query on it fails; in `removedCwdFs`
the directory `..` exists and is the single argument, but the current path
cannot be obtained.  In both runs `main` does not return 0. -/
theorem existing_path_not_accepted :
    (lockedFs.names "locked/sub" = some ⟨6, FileKind.directory, []⟩ ∧
        main ["zero-mlc", "locked/sub"] lockedFs =
          some (Outcome.terminated FilesystemError.status)) ∧
      (removedCwdFs.names ".." = some ⟨8, FileKind.directory, []⟩ ∧
        main ["zero-mlc", ".."] removedCwdFs =
          some (Outcome.terminated FilesystemError.absolute)) := by
  decide

/-- C10, amended: acceptance does not depend on the kind of the object.  `main`
returns 0 if and only if there is exactly one argument, it exists, the status
query on it succeeds, and it is absolute or the current working directory can
be obtained; and under these conditions a path that names an object of any
kind (regular file, directory, or any other) is accepted with the compilation
message. -/
theorem main_accepts_iff_exists (argv : List String) (fs : FileSystem) :
    ((∃ r, main argv fs = some (Outcome.returned r) ∧ r.exitCode = 0) ↔
        ∃ prog p, argv = [prog, p] ∧ fs.names p ≠ none ∧ fs.statFails p = false ∧
          (isAbsolute p = true ∨ fs.cwd ≠ none)) ∧
      (∀ (prog p : String) (node : FileNode) (k : FileKind),
        fs.names p = some node → node.kind = k → fs.statFails p = false →
          (isAbsolute p = true ∨ fs.cwd ≠ none) →
          ∃ abs, absolute fs p = Result.returns abs ∧
            main [prog, p] fs =
              some (Outcome.returned
                ⟨0, "Compiling " ++ abs ++ " from PyTorch to aarch64\n", ""⟩)) := by
  have key : ∀ (prog p : String), fs.names p ≠ none → fs.statFails p = false →
      (isAbsolute p = true ∨ fs.cwd ≠ none) →
      ∃ abs, absolute fs p = Result.returns abs ∧
        main [prog, p] fs = some (Outcome.returned ⟨0, compilingMessage abs, ""⟩) := by
    intro prog p hn hs hac
    rcases main_one_argument prog p fs with
      ⟨hs', _⟩ | ⟨_, hn', _⟩ | ⟨_, _, ha, hc, _⟩ | ⟨_, _, _, abs, hab, h⟩
    · rw [hs] at hs'
      exact absurd hs' (by simp)
    · exact absurd hn' hn
    · rcases hac with h4 | h4
      · rw [ha] at h4
        exact absurd h4 (by simp)
      · exact absurd hc h4
    · exact ⟨abs, hab, h⟩
  constructor
  · constructor
    · rintro ⟨r, hr, h0⟩
      by_cases hlen : argv.length = 2
      · obtain ⟨prog, p, rfl⟩ := length_two argv hlen
        rcases main_one_argument prog p fs with
          ⟨_, h⟩ | ⟨_, _, h⟩ | ⟨_, _, _, _, h⟩ | ⟨hs, hn, hac, _, _, _⟩
        · rw [h] at hr
          exact absurd hr (by simp)
        · rw [h] at hr
          simp only [Option.some.injEq, Outcome.returned.injEq] at hr
          rw [← hr] at h0
          exact absurd h0 (show (1 : Int) ≠ 0 by decide)
        · rw [h] at hr
          exact absurd hr (by simp)
        · exact ⟨prog, p, rfl, hn, hs, hac⟩
      · rw [main_wrong_count argv fs hlen] at hr
        simp only [Option.some.injEq, Outcome.returned.injEq] at hr
        rw [← hr] at h0
        exact absurd h0 (show (1 : Int) ≠ 0 by decide)
    · rintro ⟨prog, p, rfl, hn, hs, hac⟩
      obtain ⟨abs, _, h⟩ := key prog p hn hs hac
      exact ⟨_, h, rfl⟩
  · intro prog p node k hn _ hs hac
    exact key prog p (by simp [hn]) hs hac

/-- Witness of the amended C10: a directory and a first-in-first-out file are
accepted. -/
theorem main_accepts_iff_exists_witness :
    (∃ abs, absolute exampleFs "/d" = Result.returns abs ∧
        main ["zero-mlc", "/d"] exampleFs =
          some (Outcome.returned
            ⟨0, "Compiling " ++ abs ++ " from PyTorch to aarch64\n", ""⟩)) ∧
      (∃ abs, absolute exampleFsFifo "f" = Result.returns abs ∧
        main ["zero-mlc", "f"] exampleFsFifo =
          some (Outcome.returned
            ⟨0, "Compiling " ++ abs ++ " from PyTorch to aarch64\n", ""⟩)) ∧
      main ["zero-mlc", "/d"] exampleFs =
        some (Outcome.returned ⟨0, "Compiling /d from PyTorch to aarch64\n", ""⟩) ∧
      main ["zero-mlc", "f"] exampleFsFifo =
        some (Outcome.returned ⟨0, "Compiling /d/f from PyTorch to aarch64\n", ""⟩) ∧
      ∃ r, main ["zero-mlc", "f"] exampleFs = some (Outcome.returned r) ∧ r.exitCode = 0 :=
  ⟨(main_accepts_iff_exists ["zero-mlc", "/d"] exampleFs).2 "zero-mlc" "/d"
      ⟨1, FileKind.directory, []⟩ FileKind.directory (by decide) rfl (by decide) (by decide),
    (main_accepts_iff_exists ["zero-mlc", "f"] exampleFsFifo).2 "zero-mlc" "f"
      ⟨7, FileKind.fifo, []⟩ FileKind.fifo (by decide) rfl (by decide) (by decide),
    by decide, by decide,
    (main_accepts_iff_exists ["zero-mlc", "f"] exampleFs).1.2
      ⟨"zero-mlc", "f", rfl, by decide, by decide, by decide⟩⟩

end zeromlc
